import Mathlib

/-!
Shallow embedding of the report-cacher repository.

The repository has two live pieces:
* package download (src/download/download.go): a Downloader struct holding a
  cookie-bearing http client, the site url, credentials and the
  authenticity_token scraped at login; operations New, Login, LoggedIn,
  GetSoldItemsReport, and the pure helpers authToken and loginStatus.
* package main (the final scheduler draft): downloadManager (ticker loop),
  downloadAll (concurrent fan-out over the registered download functions),
  update (runs downloadAll and calls log.Fatalln on error), main and
  catchCtrlC (both close the done channel).

The http client together with the remote server is modelled as an
environment of response functions; every request the code issues is also
recorded in a trace of network events, so that statements of the form
"no request is submitted" are expressible.  goquery documents are modelled
by the three observables the code reads from them.
-/

namespace ReportCacher

/-- Observables the code reads from a parsed goquery document:
the value attribute of the input element named authenticity_token
(none when the input is absent or carries no value attribute), whether the
element with id user-controls is present, and the data_reportfile attribute
of the submit button inside the download-button container (none when
absent). -/
structure Doc where
  tokenAttr : Option String
  hasUserControls : Bool
  reportfileAttr : Option String
deriving DecidableEq

/-- Result of an http request: the numeric status code, the textual status
line used in error messages, the goquery parse of the body (error value is
the parse error message), and the ioutil.ReadAll of the body (error value
is the read error message). -/
structure Response where
  statusCode : Nat
  status : String
  doc : Except String Doc
  bodyBytes : Except String String

/-- Network events the code can emit, in program order.  getUrl covers
client.Get, postForm covers client.PostForm; the form values keep the Go
url.Values shape of a list of values per key. -/
inductive NetEvent
  | getUrl (url : String)
  | postForm (url : String) (values : List (String × List String))
deriving DecidableEq

/-- Outcome of ioutil.WriteFile: either the file now holds exactly the
written bytes, or the write failed with a message, leaving the content
given by leftover (WriteFile truncates before writing, so a failed write
may leave anything). -/
inductive WriteResult
  | ok
  | fail (msg : String) (leftover : Option String)

/-- The remote server plus transport, as deterministic response functions,
together with the local file-write behaviour.  The cookie jar shared by all
requests of one Downloader is part of this environment. -/
structure Env where
  get : String → Except String Response
  postForm : String → List (String × List String) → Except String Response
  write : String → String → WriteResult

/-- Local file system: content of each path, none when the file is absent. -/
def FS : Type := String → Option String

/-- WriteFile success: the path now holds exactly the written bytes. -/
def fsSet (fs : FS) (p : String) (v : Option String) : FS :=
  fun q => if q = p then v else fs q

/-- The Downloader struct of package download.  The http client field is
represented by the environment, not stored here. -/
structure Downloader where
  site : String
  username : String
  password : String
  authenticity_token : String
deriving DecidableEq

/-- Function authToken of download.go: the value attribute of the
authenticity_token input, with the empty string as the goquery default when
the attribute is absent. -/
def authToken (doc : Doc) : String :=
  doc.tokenAttr.getD ""

/-- Function loginStatus of download.go: true exactly when the document
contains the user-controls element. -/
def loginStatus (doc : Doc) : Bool :=
  doc.hasUserControls

/-- Form values posted to site/session by Login. -/
def loginFormValues (d : Downloader) : List (String × List String) :=
  [("authenticity_token", [d.authenticity_token]),
   ("utf8", ["✓"]),
   ("login", [d.username]),
   ("password", [d.password]),
   ("commit", ["Sign in"])]

/-- Method Login of download.go.  Returns the error result, the Downloader
after the call (the method mutates the receiver), and the trace of network
requests issued. -/
def Login (d : Downloader) (env : Env) :
    Except String Unit × Downloader × List NetEvent :=
  match env.get d.site with
  | .error _ => (.error ("Could not get: " ++ d.site), d, [.getUrl d.site])
  | .ok lp =>
    match lp.doc with
    | .error _ =>
        (.error "Failed to login: Could not read response body.", d,
         [.getUrl d.site])
    | .ok loginPage =>
      let tok := authToken loginPage
      if tok = "" then
        (.error "Failed to find authenticity_token.", d, [.getUrl d.site])
      else
        let d1 : Downloader := { d with authenticity_token := tok }
        let tr : List NetEvent :=
          [.getUrl d.site,
           .postForm (d1.site ++ "/session") (loginFormValues d1)]
        match env.postForm (d1.site ++ "/session") (loginFormValues d1) with
        | .error e => (.error ("Failed POSTing login form: " ++ e), d1, tr)
        | .ok hp =>
          match hp.doc with
          | .error e =>
              (.error ("Failed to access homepage: " ++ e), d1, tr)
          | .ok homePage =>
            if loginStatus homePage = false then
              (.error "Invalid username or password", d1, tr)
            else
              (.ok (), d1, tr)

/-- Function New of download.go: build the Downloader (cookiejar.New with
nil options never fails in Go) and call Login; on failure wrap the error. -/
def New (s u p : String) (env : Env) :
    Except String Downloader × List NetEvent :=
  let d : Downloader :=
    { site := s, username := u, password := p, authenticity_token := "" }
  match Login d env with
  | (.error e, _, tr) => (.error ("Login Failed. " ++ e), tr)
  | (.ok _, d1, tr) => (.ok d1, tr)

/-- Method LoggedIn of download.go: fetch the site and report whether the
response document shows the user-controls element; any network or parse
failure counts as not logged in. -/
def LoggedIn (d : Downloader) (env : Env) : Bool × List NetEvent :=
  match env.get d.site with
  | .error _ => (false, [.getUrl d.site])
  | .ok hp =>
    match hp.doc with
    | .error _ => (false, [.getUrl d.site])
    | .ok homePage => (loginStatus homePage, [.getUrl d.site])

/-- Form values posted to site/sold_items/create_export; chart_requested
and grouped_by are sent with an empty value list exactly as in the source. -/
def exportFormValues (d : Downloader) (startDate endDate : String) :
    List (String × List String) :=
  [("authenticity_token", [d.authenticity_token]),
   ("utf8", ["✓"]),
   ("start_date", [startDate]),
   ("end_date", [endDate]),
   ("chart_requested", ([] : List String)),
   ("grouped_by", ([] : List String)),
   ("commit", ["Retrieve"])]

/-- Method GetSoldItemsReport of download.go.  Returns the error result,
the file system after the call, and the trace of network requests. -/
def GetSoldItemsReport (d : Downloader) (env : Env) (fs : FS)
    (p startDate endDate : String) :
    Except String Unit × FS × List NetEvent :=
  match LoggedIn d env with
  | (false, tr0) => (.error "Not logged in. Perhaps call Login()?", fs, tr0)
  | (true, tr0) =>
    let exportUrl := d.site ++ "/sold_items/create_export"
    let vals := exportFormValues d startDate endDate
    let tr1 := tr0 ++ [.postForm exportUrl vals]
    match env.postForm exportUrl vals with
    | .error e =>
        (.error ("Failed POSTing sold_items/create_export form. " ++ e),
         fs, tr1)
    | .ok sip =>
      if sip.statusCode ≠ 200 then
        (.error ("sold_items/create_export responded with " ++ sip.status),
         fs, tr1)
      else
        match sip.doc with
        | .error e =>
            (.error ("Failed to access sold_items/create_export results. "
                     ++ e), fs, tr1)
        | .ok soldItemsPage =>
          match soldItemsPage.reportfileAttr with
          | none =>
              (.error
                "Failed to find a download link for the Sold Items export",
               fs, tr1)
          | some reportURL =>
            let tr2 := tr1 ++ [.getUrl reportURL]
            match env.get reportURL with
            | .error e =>
                (.error ("Failed to download the report from " ++ reportURL
                         ++ " " ++ e), fs, tr2)
            | .ok reportRes =>
              match reportRes.bodyBytes with
              | .error e => (.error ("Failed to read report. " ++ e), fs, tr2)
              | .ok report =>
                match env.write p report with
                | .ok => (.ok (), fsSet fs p (some report), tr2)
                | .fail e leftover =>
                    (.error ("Failed to write file to " ++ p ++ " Error: "
                             ++ e), fsSet fs p leftover, tr2)

/-- Program flags of the final main draft that the orchestration reads. -/
structure Config where
  site : String
  email : String
  password : String
  directory : String

/-- Destination path built by downloadSoldItemsReport with path.Join of the
directory flag and sold_items.csv. -/
def soldItemsPath (cfg : Config) : String :=
  cfg.directory ++ "/sold_items.csv"

/-- Function downloadSoldItemsReport of the final main draft: fetch the
sold-items report for the window from a week ago to today and log the
error, if any.  Returns the logged message (none on success) and the file
system after the call.  The two date strings stand for the formatted
results of time.Now and time.Now minus seven days. -/
def downloadSoldItemsReport (cfg : Config) (today aWeekAgo : String)
    (d : Downloader) (env : Env) (fs : FS) : Option String × FS :=
  match GetSoldItemsReport d env fs (soldItemsPath cfg) aWeekAgo today with
  | (.error e, fs1, _) =>
      (some ("Failed to download sold items report. Error: " ++ e), fs1)
  | (.ok _, fs1, _) => (none, fs1)

/-- Function fakeDownload of the final main draft: logs a line and does
nothing, so it never reports an error. -/
def fakeDownload (_ : Downloader) : Option String :=
  none

/-- Function downloadAll of the final main draft: authenticate with
download.New, then run the registered download functions (the slice holds
downloadSoldItemsReport and fakeDownload) concurrently over the same
Downloader and wait for all of them on the WaitGroup.  The fan-out/join is
embedded as the list of the per-task reports, one entry per registered
function, each computed from its own task alone; the orchestration result
itself is ok whenever New succeeded.  Returns the orchestration result,
the per-task reports, and the file system after the tick. -/
def downloadAll (cfg : Config) (today aWeekAgo : String) (env : Env)
    (fs : FS) : Except String Unit × List (Option String) × FS :=
  match New cfg.site cfg.email cfg.password env with
  | (.error e, _) =>
      (.error ("Failed to initialize downloader: " ++ e), [], fs)
  | (.ok downloader, _) =>
    let r1 := downloadSoldItemsReport cfg today aWeekAgo downloader env fs
    let r2 := fakeDownload downloader
    (.ok (), [r1.1, r2], r1.2)

/-- Observable outcome of one call to update in the final main draft:
either the tick completed (and the loop can continue), or log.Fatalln ran,
which prints the error and calls os.Exit with code 1, terminating the
whole process. -/
inductive TickOutcome
  | completed
  | processTerminated (msg : String)
deriving DecidableEq

/-- Function update of the final main draft: run downloadAll; on error it
calls log.Fatalln on the error, which terminates the process. -/
def update (cfg : Config) (today aWeekAgo : String) (env : Env) (fs : FS) :
    TickOutcome × FS :=
  match downloadAll cfg today aWeekAgo env fs with
  | (.error e, _, fs1) => (.processTerminated e, fs1)
  | (.ok _, _, fs1) => (.completed, fs1)

/-- Loop body of downloadManager.  At loop-entry time t the select waits on
a ticker created at t firing at t plus the interval, and on the done
channel, which becomes ready at time c.  If the tick fires first, update
runs at that time and the loop repeats; otherwise the loop returns when
done fires.  Updates are instantaneous in this timing model.  The fuel
argument bounds the number of iterations; since every iteration advances
time by the interval, c iterations always suffice when the interval is
positive, and downloadManagerModel passes fuel c. -/
def downloadManagerLoop (i c : Nat) : Nat → Nat → List Nat × Nat
  | _, 0 => ([], c)
  | t, fuel + 1 =>
    if t + i < c then
      let r := downloadManagerLoop i c (t + i) fuel
      ((t + i) :: r.1, r.2)
    else
      ([], c)

/-- Function downloadManager of the final main draft: perform the initial
update immediately at time 0, then one update per elapsed interval until
the done channel (ready at time c) wins the select.  Returns the list of
times at which update ran and the time at which the loop returned. -/
def downloadManagerModel (i c : Nat) : List Nat × Nat :=
  let r := downloadManagerLoop i c 0 c
  (0 :: r.1, r.2)

/-- State of a Go channel as far as close is concerned. -/
inductive ChanState
  | opened
  | closed
deriving DecidableEq

/-- Go semantics of the builtin close: closing an open channel closes it;
closing an already closed channel panics with the runtime message. -/
def closeChan : ChanState → Except String ChanState
  | .opened => .ok .closed
  | .closed => .error "close of closed channel"

/-- How the process run by the final main draft ends, as far as the done
channel is concerned. -/
inductive ShutdownOutcome
  | exitedCleanly
  | exitedByInterrupt
  | panicked (msg : String)
deriving DecidableEq

/-- Grace period in seconds the interrupt handler sleeps between closing
done and calling os.Exit. -/
def interruptGrace : Nat := 8

/-- Seconds main sleeps before closing done (the three-minute cutoff). -/
def runLimit : Nat := 180

/-- Timeline of the done channel in the final main draft.  main sleeps
runLimit seconds and then closes done; catchCtrlC installs a handler that,
on an interrupt at time ti, closes done and calls os.Exit after
interruptGrace more seconds.  The channel operations are applied in time
order with the Go close semantics of closeChan. -/
def mainShutdown (interruptAt : Option Nat) : ShutdownOutcome :=
  match interruptAt with
  | none =>
    match closeChan .opened with
    | .ok _ => .exitedCleanly
    | .error e => .panicked e
  | some ti =>
    if runLimit < ti then
      match closeChan .opened with
      | .ok _ => .exitedCleanly
      | .error e => .panicked e
    else
      match closeChan .opened with
      | .error e => .panicked e
      | .ok st1 =>
        if ti + interruptGrace ≤ runLimit then
          .exitedByInterrupt
        else
          match closeChan st1 with
          | .error e => .panicked e
          | .ok _ => .exitedCleanly

/-! Concrete fixtures used by witnesses and counterexamples. -/

/-- Site url fixture. -/
def siteA : String := "s"

/-- Login page fixture: carries the token, no authenticated marker. -/
def docLogin : Doc := { tokenAttr := some "abc123", hasUserControls := false, reportfileAttr := none }

/-- Authenticated home page fixture: marker present, no token input. -/
def docHome : Doc := { tokenAttr := none, hasUserControls := true, reportfileAttr := none }

/-- Page fixture lacking the authenticity_token input entirely. -/
def docNoToken : Doc := { tokenAttr := none, hasUserControls := false, reportfileAttr := none }

/-- Export result page fixture carrying the download link. -/
def docExport : Doc := { tokenAttr := none, hasUserControls := false, reportfileAttr := some "r" }

/-- Html page response fixture with status 200. -/
def pageResp (d : Doc) : Response :=
  { statusCode := 200, status := "200 OK", doc := .ok d, bodyBytes := .error "page body not read as bytes" }

/-- Raw byte response fixture with status 200. -/
def bytesResp (s : String) : Response :=
  { statusCode := 200, status := "200 OK", doc := .error "not html", bodyBytes := .ok s }

/-- Non-success response fixture, as the server answers a malformed export
submission. -/
def resp422 : Response :=
  { statusCode := 422, status := "422 Unprocessable Entity", doc := .error "not parsed", bodyBytes := .error "not read" }

/-- Downloader fixture as produced by a completed login. -/
def dLogged : Downloader :=
  { site := siteA, username := "u", password := "p", authenticity_token := "abc123" }

/-- Downloader fixture before any login. -/
def dFresh : Downloader :=
  { site := siteA, username := "u", password := "p", authenticity_token := "" }

/-- Empty file system fixture. -/
def fsEmpty : FS := fun _ => none

/-- Environment fixture in which every request fails at the network level. -/
def envDown : Env :=
  { get := fun _ => .error "connection refused",
    postForm := fun _ _ => .error "connection refused",
    write := fun _ _ => .ok }

/-- Environment fixture for an established session: the site serves the
authenticated page, and every form submission is answered with the
non-success status. -/
def envExportRejected : Env :=
  { get := fun _ => .ok (pageResp docHome),
    postForm := fun _ _ => .ok resp422,
    write := fun _ _ => .ok }

/-- Environment fixture for a working login: the site serves the login
page, and the session submission is answered with the authenticated page. -/
def envLoginOk : Env :=
  { get := fun _ => .ok (pageResp docLogin),
    postForm := fun _ _ => .ok (pageResp docHome),
    write := fun _ _ => .ok }

/-- Environment fixture for rejected credentials: the login page is served,
but the session submission is answered with a page lacking the marker,
still with status 200. -/
def envLoginRejected : Env :=
  { get := fun _ => .ok (pageResp docLogin),
    postForm := fun _ _ => .ok (pageResp docNoToken),
    write := fun _ _ => .ok }

/-- Environment fixture for a session that was never established: the site
always serves the login page, which lacks the marker. -/
def envNoSession : Env :=
  { get := fun _ => .ok (pageResp docLogin),
    postForm := fun _ _ => .error "not reached",
    write := fun _ _ => .ok }

/-- Environment fixture in which the login page lacks the token input. -/
def envNoTokenInput : Env :=
  { get := fun _ => .ok (pageResp docNoToken),
    postForm := fun _ _ => .error "not reached",
    write := fun _ _ => .ok }

/-- Environment fixture in which the login page is served but the session
submission fails at the network level. -/
def envPostFails : Env :=
  { get := fun _ => .ok (pageResp docLogin),
    postForm := fun _ _ => .error "connection reset",
    write := fun _ _ => .ok }

/-- Environment fixture for the full happy export path: the site serves the
authenticated page, the export submission is answered with the page holding
the download link, fetching the link yields the report bytes, and the write
succeeds. -/
def envHappy : Env :=
  { get := fun u => if u = siteA then .ok (pageResp docHome) else .ok (bytesResp "a,b,c\n1,2,3\n"),
    postForm := fun _ _ => .ok (pageResp docExport),
    write := fun _ _ => .ok }

/-- File system fixture in which every path holds an earlier report. -/
def fsOld : FS := fun _ => some "old,bytes"

/-- Config fixture matching the flag defaults with required values set. -/
def cfg0 : Config :=
  { site := siteA, email := "u", password := "p", directory := "files" }

/-- Meaning of an unestablished session at the http boundary: the server,
not recognizing the transport as authenticated, never serves the site page
with the user-controls marker (covering network failure, parse failure and
marker absence alike). -/
def sessionNotEstablished (env : Env) (site : String) : Prop :=
  ∀ r, env.get site = .ok r → ∀ doc, r.doc = .ok doc → doc.hasUserControls = false

/-- Condition on the environment under which a report fetch that passed the
logged-in probe fails before reaching the WriteFile step, covering every
pre-write failure mode of GetSoldItemsReport in source order: the export
submission fails at the network level, or it returns a non-200 status, or
its body does not parse, or the parsed page has no download link, or
fetching the link fails at the network level, or reading the report body
fails.  Only when every one of these steps succeeds does the run reach the
write. -/
def prewriteFailure (env : Env) (d : Downloader)
    (startDate endDate : String) : Bool :=
  match env.postForm (d.site ++ "/sold_items/create_export")
      (exportFormValues d startDate endDate) with
  | .error _ => true
  | .ok sip =>
    if sip.statusCode ≠ 200 then true
    else
      match sip.doc with
      | .error _ => true
      | .ok page =>
        match page.reportfileAttr with
        | none => true
        | some url =>
          match env.get url with
          | .error _ => true
          | .ok rep =>
            match rep.bodyBytes with
            | .error _ => true
            | .ok _ => false

/-! Claim theorems. -/

/-- Helper: LoggedIn answers true with the single probe in the trace when
the site page carries the marker. -/
theorem LoggedIn_true_of_marker (d : Downloader) (env : Env) (r : Response)
    (doc : Doc) (hget : env.get d.site = .ok r) (hdoc : r.doc = .ok doc)
    (hm : doc.hasUserControls = true) :
    LoggedIn d env = (true, [NetEvent.getUrl d.site]) := by
  unfold LoggedIn
  rw [hget]
  simp [hdoc, loginStatus, hm]

/-- C5: the Login operation succeeds exactly when the post-login document
contains the user-controls marker, and its absence yields the
invalid-credentials error.  The status code of the login response is
quantified freely and never constrained, so the equivalence holds
independently of it. -/
theorem C5_login_succeeds_iff_marker (d : Downloader) (env : Env)
    (lp hp : Response) (loginPage homePage : Doc)
    (hget : env.get d.site = .ok lp) (hlp : lp.doc = .ok loginPage)
    (htok : authToken loginPage ≠ "")
    (hpost : env.postForm (d.site ++ "/session")
      (loginFormValues { d with authenticity_token := authToken loginPage }) = .ok hp)
    (hhp : hp.doc = .ok homePage) :
    ((Login d env).1 = .ok () ↔ homePage.hasUserControls = true) ∧
    (homePage.hasUserControls = false →
      (Login d env).1 = .error "Invalid username or password") := by
  unfold Login
  rw [hget]
  simp only [hlp]
  rw [if_neg htok]
  simp only [hpost, hhp, loginStatus]
  rcases Bool.eq_false_or_eq_true homePage.hasUserControls with hm | hm <;>
    simp [hm]

/-- C5 witness: in the concrete environment where the post-login page
carries the marker the login succeeds, and in the one where it does not
(still with status 200) the login fails with the invalid-credentials
error. -/
theorem C5_login_succeeds_iff_marker_witness :
    (Login dFresh envLoginOk).1 = .ok () ∧
    (Login dFresh envLoginRejected).1 = .error "Invalid username or password" := by
  constructor
  · exact (C5_login_succeeds_iff_marker dFresh envLoginOk
      (pageResp docLogin) (pageResp docHome) docLogin docHome
      rfl rfl (by decide) rfl rfl).1.mpr rfl
  · exact (C5_login_succeeds_iff_marker dFresh envLoginRejected
      (pageResp docLogin) (pageResp docNoToken) docLogin docNoToken
      rfl rfl (by decide) rfl rfl).2 rfl

/-- Helper: LoggedIn probes the site once, and on an unestablished session
the probe never shows the marker, so the answer is false with the single
probe in the trace. -/
theorem LoggedIn_false_of_sessionNotEstablished (d : Downloader) (env : Env)
    (h : sessionNotEstablished env d.site) :
    LoggedIn d env = (false, [NetEvent.getUrl d.site]) := by
  unfold LoggedIn
  cases hget : env.get d.site with
  | error e => rfl
  | ok r =>
    cases hdoc : r.doc with
    | error e => simp [hdoc]
    | ok doc => simp [hdoc, loginStatus, h r hget doc hdoc]

/-- C7: on a session whose authentication flow never completed, any report
fetch fails with the not-logged-in error, and its trace is the single
status probe: no export submission is posted at all, in particular none
carrying an empty authenticity token. -/
theorem C7_fetch_without_session (d : Downloader) (env : Env) (fs : FS)
    (p startDate endDate : String) (h : sessionNotEstablished env d.site) :
    (GetSoldItemsReport d env fs p startDate endDate).1 =
      .error "Not logged in. Perhaps call Login()?" ∧
    (GetSoldItemsReport d env fs p startDate endDate).2.2 =
      [NetEvent.getUrl d.site] := by
  have hL := LoggedIn_false_of_sessionNotEstablished d env h
  unfold GetSoldItemsReport
  rw [hL]
  exact ⟨rfl, rfl⟩

/-- C7 witness: with the concrete environment that always serves the login
page, the fetch fails with the not-logged-in error and issues only the
status probe. -/
theorem C7_fetch_without_session_witness :
    (GetSoldItemsReport dFresh envNoSession fsEmpty "f" "2024-01-01" "2024-01-07").1 =
      .error "Not logged in. Perhaps call Login()?" ∧
    (GetSoldItemsReport dFresh envNoSession fsEmpty "f" "2024-01-01" "2024-01-07").2.2 =
      [NetEvent.getUrl dFresh.site] := by
  refine C7_fetch_without_session dFresh envNoSession fsEmpty "f" "2024-01-01" "2024-01-07" ?_
  intro r hr doc hdoc
  cases hr
  cases hdoc
  rfl

/-- C8: on a document lacking the authenticity_token input the extraction
returns the empty string (and no error), and a Login served such a login
page fails with the token-not-found error without posting the login form:
its trace is the single page fetch. -/
theorem C8_missing_token_input (doc : Doc) (d : Downloader) (env : Env)
    (lp : Response) (hdoc : doc.tokenAttr = none)
    (hget : env.get d.site = .ok lp) (hlp : lp.doc = .ok doc) :
    authToken doc = "" ∧
    (Login d env).1 = .error "Failed to find authenticity_token." ∧
    (Login d env).2.2 = [NetEvent.getUrl d.site] := by
  have htok : authToken doc = "" := by simp [authToken, hdoc]
  refine ⟨htok, ?_⟩
  unfold Login
  rw [hget]
  simp [hlp, htok]

/-- C8 witness: the concrete tokenless page yields the empty extraction,
and the Login against the environment serving it stops with the
token-not-found error after the single page fetch. -/
theorem C8_missing_token_input_witness :
    authToken docNoToken = "" ∧
    (Login dFresh envNoTokenInput).1 = .error "Failed to find authenticity_token." ∧
    (Login dFresh envNoTokenInput).2.2 = [NetEvent.getUrl dFresh.site] :=
  C8_missing_token_input docNoToken dFresh envNoTokenInput
    (pageResp docNoToken) rfl rfl rfl

/-- C10: once Login has scraped a non-empty token from the login page, the
token is stored in the Downloader before the form submission, and it stays
there whatever happens afterwards: the submission, the response parse or
the marker check may all fail, yet the resulting Downloader carries the
scraped token and the prior field value is not restored. -/
theorem C10_login_stores_token (d : Downloader) (env : Env) (lp : Response)
    (loginPage : Doc) (hget : env.get d.site = .ok lp)
    (hlp : lp.doc = .ok loginPage) (htok : authToken loginPage ≠ "") :
    (Login d env).2.1.authenticity_token = authToken loginPage := by
  unfold Login
  rw [hget]
  simp only [hlp]
  rw [if_neg htok]
  cases hpost : env.postForm (d.site ++ "/session")
      (loginFormValues { d with authenticity_token := authToken loginPage }) with
  | error e => simp [hpost]
  | ok hp =>
    cases hhp : hp.doc with
    | error e => simp [hpost, hhp]
    | ok homePage =>
      rcases Bool.eq_false_or_eq_true (loginStatus homePage) with hm | hm <;>
        simp [hpost, hhp, hm]

/-- C10 witness: with the login page carrying token abc123 and the session
submission failing at the network level, the failed Login leaves abc123 in
the authenticity_token field of the returned Downloader. -/
theorem C10_login_stores_token_witness :
    (Login dFresh envPostFails).1 = .error "Failed POSTing login form: connection reset" ∧
    (Login dFresh envPostFails).2.1.authenticity_token = "abc123" := by
  constructor
  · rfl
  · exact C10_login_stores_token dFresh envPostFails (pageResp docLogin)
      docLogin rfl rfl (by decide)

/-- C2 counterexample: a request whose start date 2024-01-08 comes after
its end date 2024-01-01 is not rejected locally: the export form carrying
exactly these dates is submitted over the network (it appears in the
request trace), refuting rejection before network submission. -/
theorem C2_counterexample :
    ("2024-01-01" : String).data < ("2024-01-08" : String).data ∧
    NetEvent.postForm (siteA ++ "/sold_items/create_export")
        (exportFormValues dLogged "2024-01-08" "2024-01-01") ∈
      (GetSoldItemsReport dLogged envExportRejected fsEmpty "f"
        "2024-01-08" "2024-01-01").2.2 := by
  constructor
  · decide
  · have htr : (GetSoldItemsReport dLogged envExportRejected fsEmpty "f"
        "2024-01-08" "2024-01-01").2.2 =
        [NetEvent.getUrl siteA,
         NetEvent.postForm (siteA ++ "/sold_items/create_export")
           (exportFormValues dLogged "2024-01-08" "2024-01-01")] := rfl
    rw [htr]
    exact List.mem_cons_of_mem _ (List.mem_cons_self _ _)

/-- C2 amended: the fetch performs no local comparison of the two dates.
Once the logged-in probe passes, the export form is submitted over the
network with whatever dates were given (the submission is in the trace for
every date pair, ordered or not), and a malformed range is rejected only
afterwards, by the server answering the submission with a non-200 status. -/
theorem C2_amended_no_local_date_check (d : Downloader) (env : Env) (fs : FS)
    (p startDate endDate : String) (r : Response) (doc : Doc)
    (hget : env.get d.site = .ok r) (hdoc : r.doc = .ok doc)
    (hm : doc.hasUserControls = true) :
    NetEvent.postForm (d.site ++ "/sold_items/create_export")
        (exportFormValues d startDate endDate) ∈
      (GetSoldItemsReport d env fs p startDate endDate).2.2 ∧
    (∀ sip, env.postForm (d.site ++ "/sold_items/create_export")
          (exportFormValues d startDate endDate) = .ok sip →
       sip.statusCode ≠ 200 →
       (GetSoldItemsReport d env fs p startDate endDate).1 =
         .error ("sold_items/create_export responded with " ++ sip.status)) := by
  have hL := LoggedIn_true_of_marker d env r doc hget hdoc hm
  constructor
  · unfold GetSoldItemsReport
    rw [hL]
    try dsimp only
    repeat' split
    all_goals simp [List.mem_append]
  · intro sip hpost hstat
    unfold GetSoldItemsReport
    rw [hL]
    try dsimp only
    rw [hpost]
    try dsimp only
    rw [if_pos hstat]

/-- C2 amended witness: in the concrete rejected-export environment the
ill-ordered request is submitted (the export post is in the trace) and the
fetch then fails with the status error the server answered. -/
theorem C2_amended_no_local_date_check_witness :
    NetEvent.postForm (siteA ++ "/sold_items/create_export")
        (exportFormValues dLogged "2024-01-08" "2024-01-01") ∈
      (GetSoldItemsReport dLogged envExportRejected fsOld "g"
        "2024-01-08" "2024-01-01").2.2 ∧
    (GetSoldItemsReport dLogged envExportRejected fsOld "g"
        "2024-01-08" "2024-01-01").1 =
      .error "sold_items/create_export responded with 422 Unprocessable Entity" := by
  have h := C2_amended_no_local_date_check dLogged envExportRejected fsOld "g"
    "2024-01-08" "2024-01-01" (pageResp docHome) docHome rfl rfl rfl
  exact ⟨h.1, h.2 resp422 rfl (by decide)⟩

/-- C4 counterexample: with the old report present at the destination, a
run whose new download fails (the server rejects the export with a non-200
status) leaves the old file exactly as it was, refuting that the old file
does not remain when the new download fails. -/
theorem C4_counterexample :
    (GetSoldItemsReport dLogged envExportRejected fsOld "f"
        "2024-01-01" "2024-01-07").1 =
      .error "sold_items/create_export responded with 422 Unprocessable Entity" ∧
    (GetSoldItemsReport dLogged envExportRejected fsOld "f"
        "2024-01-01" "2024-01-07").2.1 "f" = some "old,bytes" :=
  ⟨rfl, rfl⟩

/-- C4 amended: re-running the same request against an authenticated
session overwrites the destination with the newly downloaded bytes when
every step succeeds; when the new download fails anywhere before the write
— the logged-in probe fails, or the export submission fails at the network
level, or is answered with a non-200 status, or its body does not parse,
or the page has no download link, or the report fetch or its body read
fails — the fetch returns an error and the file system is left untouched
at every path, so the old file remains.  The write is performed with
WriteFile, which truncates and rewrites in place rather than writing
all-or-nothing. -/
theorem C4_amended_overwrite_or_untouched (d : Downloader) (env : Env)
    (fs : FS) (p startDate endDate : String) :
    (((LoggedIn d env).1 = false ∨
        prewriteFailure env d startDate endDate = true) →
       (∃ e, (GetSoldItemsReport d env fs p startDate endDate).1 = .error e) ∧
       ∀ q, (GetSoldItemsReport d env fs p startDate endDate).2.1 q = fs q) ∧
    (∀ r doc, env.get d.site = .ok r → r.doc = .ok doc →
       doc.hasUserControls = true →
       ∀ sip page url rep,
         env.postForm (d.site ++ "/sold_items/create_export")
             (exportFormValues d startDate endDate) = .ok sip →
         sip.statusCode = 200 → sip.doc = .ok page →
         page.reportfileAttr = some url → env.get url = .ok rep →
         ∀ bytes, rep.bodyBytes = .ok bytes → env.write p bytes = .ok →
         (GetSoldItemsReport d env fs p startDate endDate).1 = .ok () ∧
         (GetSoldItemsReport d env fs p startDate endDate).2.1 p = some bytes) := by
  constructor
  · intro h
    unfold GetSoldItemsReport
    rcases hLL : LoggedIn d env with ⟨b, tr0⟩
    cases b with
    | false => exact ⟨⟨_, rfl⟩, fun q => rfl⟩
    | true =>
      have hF : prewriteFailure env d startDate endDate = true := by
        rcases h with hL | hF
        · rw [hLL] at hL
          simp at hL
        · exact hF
      try dsimp only
      unfold prewriteFailure at hF
      split at hF
      · rename_i e heq
        try rw [heq]
        exact ⟨⟨_, rfl⟩, fun q => rfl⟩
      · rename_i sip heq
        try rw [heq]
        try dsimp only
        split at hF
        · rename_i hs
          rw [if_pos hs]
          exact ⟨⟨_, rfl⟩, fun q => rfl⟩
        · rename_i hs
          rw [if_neg hs]
          split at hF
          · rename_i e heq2
            try rw [heq2]
            exact ⟨⟨_, rfl⟩, fun q => rfl⟩
          · rename_i page heq2
            try rw [heq2]
            try dsimp only
            split at hF
            · rename_i heq3
              try rw [heq3]
              exact ⟨⟨_, rfl⟩, fun q => rfl⟩
            · rename_i url heq3
              try rw [heq3]
              try dsimp only
              split at hF
              · rename_i e heq4
                try rw [heq4]
                exact ⟨⟨_, rfl⟩, fun q => rfl⟩
              · rename_i rep heq4
                try rw [heq4]
                try dsimp only
                split at hF
                · rename_i e heq5
                  try rw [heq5]
                  exact ⟨⟨_, rfl⟩, fun q => rfl⟩
                · rename_i bytes heq5
                  exact absurd hF (by decide)
  · intro r doc hget hdoc hm sip page url rep hpost hstat hpage hurl hrep
      bytes hbytes hw
    have hL := LoggedIn_true_of_marker d env r doc hget hdoc hm
    unfold GetSoldItemsReport
    rw [hL]
    try dsimp only
    rw [hpost]
    try dsimp only
    rw [if_neg (by simp [hstat])]
    simp only [hpage]
    try dsimp only
    rw [hurl]
    try dsimp only
    rw [hrep]
    simp only [hbytes]
    try dsimp only
    rw [hw]
    exact ⟨rfl, by simp [fsSet]⟩

/-- C4 amended witness: with the old report in place, a run whose export is
rejected (a pre-write failure) errors and leaves the old bytes untouched,
while in the happy-path environment the same request succeeds and the
destination holds exactly the downloaded bytes. -/
theorem C4_amended_overwrite_or_untouched_witness :
    (∃ e, (GetSoldItemsReport dLogged envExportRejected fsOld "f"
        "2024-01-01" "2024-01-07").1 = .error e) ∧
    (GetSoldItemsReport dLogged envExportRejected fsOld "f"
        "2024-01-01" "2024-01-07").2.1 "f" = some "old,bytes" ∧
    (GetSoldItemsReport dLogged envHappy fsOld "f" "2024-01-01" "2024-01-07").1 =
      .ok () ∧
    (GetSoldItemsReport dLogged envHappy fsOld "f" "2024-01-01" "2024-01-07").2.1 "f" =
      some "a,b,c\n1,2,3\n" := by
  have hA := (C4_amended_overwrite_or_untouched dLogged envExportRejected
      fsOld "f" "2024-01-01" "2024-01-07").1 (Or.inr (by decide))
  have hB := (C4_amended_overwrite_or_untouched dLogged envHappy fsOld "f"
      "2024-01-01" "2024-01-07").2 (pageResp docHome) docHome rfl rfl rfl
      (pageResp docExport) docExport "r" (bytesResp "a,b,c\n1,2,3\n")
      rfl rfl rfl rfl rfl "a,b,c\n1,2,3\n" rfl rfl
  exact ⟨hA.1, (hA.2 "f").trans rfl, hB.1, hB.2⟩

/-- C6: within one tick the orchestration returns an error exactly when
download.New (authentication) fails, with the wrapped message; when
authentication succeeds the fan-out join completes with one report slot
per registered task, each slot computed from its own task alone, so a
failing sold-items fetch neither cancels the sibling task nor alters the
ok returned by the orchestration. -/
theorem C6_downloadAll_error_only_from_New (cfg : Config)
    (today aWeekAgo : String) (env : Env) (fs : FS) :
    (∀ e, (downloadAll cfg today aWeekAgo env fs).1 = .error e ↔
       ∃ e0, (New cfg.site cfg.email cfg.password env).1 = .error e0 ∧
         e = "Failed to initialize downloader: " ++ e0) ∧
    (∀ dl, (New cfg.site cfg.email cfg.password env).1 = .ok dl →
       (downloadAll cfg today aWeekAgo env fs).1 = .ok () ∧
       (downloadAll cfg today aWeekAgo env fs).2.1 =
         [(downloadSoldItemsReport cfg today aWeekAgo dl env fs).1,
          fakeDownload dl]) := by
  unfold downloadAll
  rcases hN : New cfg.site cfg.email cfg.password env with ⟨res, tr⟩
  cases res with
  | error e0 =>
    refine ⟨fun e => ?_, fun dl hdl => ?_⟩
    · simp [eq_comm]
    · simp at hdl
  | ok dl0 =>
    refine ⟨fun e => ?_, fun dl hdl => ?_⟩
    · simp
    · simp only [Prod.fst] at hdl
      injection hdl with hdl1
      subst hdl1
      exact ⟨rfl, rfl⟩

/-- C6 witness: in the environment where login succeeds but the sold-items
fetch then fails its logged-in probe, the orchestration still returns ok
and both task slots are reported: the sold-items failure message next to
the untouched success of the sibling fake task. -/
theorem C6_downloadAll_error_only_from_New_witness :
    (downloadAll cfg0 "2024-01-08" "2024-01-01" envLoginOk fsEmpty).1 =
      .ok () ∧
    (downloadAll cfg0 "2024-01-08" "2024-01-01" envLoginOk fsEmpty).2.1 =
      [some "Failed to download sold items report. Error: Not logged in. Perhaps call Login()?",
       none] := by
  have h := (C6_downloadAll_error_only_from_New cfg0 "2024-01-08" "2024-01-01"
      envLoginOk fsEmpty).2 dLogged rfl
  exact ⟨h.1, h.2.trans rfl⟩

/-- C1 counterexample: on a tick whose orchestration fails (here the site
is unreachable, so authentication fails and downloadAll returns an error),
update does not log-and-continue: it reaches log.Fatalln, which terminates
the process, refuting that a failing tick never terminates the process. -/
theorem C1_counterexample :
    (update cfg0 "2024-01-08" "2024-01-01" envDown fsEmpty).1 =
      .processTerminated
        "Failed to initialize downloader: Login Failed. Could not get: s" :=
  rfl

/-- C1 amended: on every tick whose orchestration fails, update passes the
error to log.Fatalln, which prints it and terminates the whole process, so
no later tick can run; only a successful orchestration lets the scheduler
continue to the next tick. -/
theorem C1_amended_failing_tick_terminates (cfg : Config)
    (today aWeekAgo : String) (env : Env) (fs : FS) :
    (∀ e, (downloadAll cfg today aWeekAgo env fs).1 = .error e →
       (update cfg today aWeekAgo env fs).1 = .processTerminated e) ∧
    ((downloadAll cfg today aWeekAgo env fs).1 = .ok () →
       (update cfg today aWeekAgo env fs).1 = .completed) := by
  unfold update
  rcases hD : downloadAll cfg today aWeekAgo env fs with ⟨res, reports, fs1⟩
  cases res with
  | error e0 =>
    refine ⟨fun e he => ?_, fun he => ?_⟩
    · simp only [Prod.fst] at he
      injection he with he1
      subst he1
      rfl
    · simp at he
  | ok u =>
    refine ⟨fun e he => ?_, fun he => ?_⟩
    · simp at he
    · rfl

/-- C1 amended witness: with the unreachable site the orchestration fails
with the wrapped authentication error and update ends the process with
exactly that message. -/
theorem C1_amended_failing_tick_terminates_witness :
    (downloadAll cfg0 "t" "w" envDown fsEmpty).1 =
      .error "Failed to initialize downloader: Login Failed. Could not get: s" ∧
    (update cfg0 "t" "w" envDown fsEmpty).1 =
      .processTerminated
        "Failed to initialize downloader: Login Failed. Could not get: s" :=
  ⟨rfl, (C1_amended_failing_tick_terminates cfg0 "t" "w" envDown fsEmpty).1 _ rfl⟩

/-- C9: the scheduler performs the first update immediately at entry time
zero for every interval and cancellation time, and in the concrete
scenario of a one-minute interval with cancellation fired at three minutes
thirty seconds (sixty and two hundred ten seconds) exactly four updates
run, at times 0, 60, 120 and 180, and the loop returns at the cancellation
time itself, within one interval after it. -/
theorem C9_scheduler_immediate_and_four_runs :
    (∀ i c, (downloadManagerModel i c).1.head? = some 0) ∧
    (downloadManagerModel 60 210).1 = [0, 60, 120, 180] ∧
    (downloadManagerModel 60 210).1.length = 4 ∧
    (downloadManagerModel 60 210).2 = 210 ∧
    (downloadManagerModel 60 210).2 ≤ 210 + 60 := by
  refine ⟨fun i c => rfl, ?_, ?_, ?_, ?_⟩ <;> decide

/-- C3: evaluation of the shutdown timeline at the failing input.  With the
interrupt delivered 175 seconds in, the handler closes done at 175 and
schedules os.Exit for 183, but main reaches its own close of done at the
180-second cutoff first: the second close is a close of a closed channel,
which panics and crashes the process.  An interrupt early enough that
os.Exit fires inside the grace period, or no interrupt at all, avoids the
double close. -/
theorem C3_double_close_panics :
    mainShutdown (some 175) = .panicked "close of closed channel" ∧
    mainShutdown none = .exitedCleanly ∧
    mainShutdown (some 100) = .exitedByInterrupt :=
  ⟨rfl, rfl, rfl⟩

end ReportCacher
